import Mathlib

/-!
# Verification of the vocabulary-state and lookup subsystem

Shallow embedding of the core of `src/backend/main.py` (FastAPI backend for a
German vocabulary audio player) and of the filename construction in
`src/generate_missing_audio.py`, with theorems settling the frozen claims
about the specification.

Modelling conventions:
* A CSV row is a record of four raw field strings.  `pandas.read_csv` turns a
  missing field into `NaN`, and the backend immediately applies
  `str(...)`, which renders `NaN` as the literal string `"nan"`; we therefore
  model a missing field as the string `"nan"` directly.
* Python `str.strip()` is modelled by `pyStrip` (drop leading and trailing
  whitespace), `s[:n]` by `pyTake n s`, and `f"{index:03d}"` by `pad3`.
* Python's Unicode-aware `str.isalnum()` is modelled by `pyIsAlnum`, which
  covers ASCII alphanumerics plus the Latin-1 Supplement and Latin
  Extended-A/B letters (the character repertoire of the German/English
  dataset).  Every claim below is insensitive to the exact alphanumeric set;
  what matters is that the backend and the generator use the same test.
* The SQLite table `excluded_words` (with its `UNIQUE(word_index)` constraint
  and autoincrement rowid) is modelled as a list of `ExclusionRecord`s in
  rowid order; `INSERT OR REPLACE` deletes any conflicting row and appends
  the new row at the end.
* The filesystem probed by the audio endpoint is modelled as a partial map
  from file names to file sizes (`none` = the file does not exist).
* FastAPI `HTTPException`s are modelled by the error type `ApiError`, one
  constructor per distinct (status, detail) pair raised by the core.
-/

/-- One row of `SingeSheet.csv` as loaded by `load_vocabulary_data`
(`src/backend/main.py`, lines 80-95): four raw string fields in fixed column
order, already passed through Python `str(...)` (so a missing field is the
literal string `"nan"`). -/
structure Row where
  german_word : String
  english_word : String
  german_sentence : String
  english_sentence : String
deriving Repr, DecidableEq

/-- The default row used only to make list indexing total; every use is
guarded by a range check. -/
def emptyRow : Row := ⟨"", "", "", ""⟩

/-- A vocabulary entry as returned to the client by `get_vocabulary` and
`get_vocabulary_item`: the positional index together with the four stripped
fields. -/
structure VocabEntry where
  index : Nat
  german_word : String
  english_word : String
  german_sentence : String
  english_sentence : String
deriving Repr, DecidableEq

/-- A row of the SQLite table `excluded_words`
(`src/backend/main.py`, lines 62-71): word index, snapshot of the two word
fields, and the exclusion timestamp (modelled as a natural number). -/
structure ExclusionRecord where
  word_index : Int
  german_word : String
  english_word : String
  excluded_at : Nat
deriving Repr, DecidableEq

/-- The distinct error outcomes raised by the modelled endpoints, one
constructor per distinct `HTTPException` (status code, detail) pair:
`notFound` = 404 "... not found" on an index, `invalidAudioKind` = 400
"Invalid audio type", `artifactNotFound` = 404 "Audio file not found". -/
inductive ApiError where
  | notFound
  | invalidAudioKind
  | artifactNotFound
deriving Repr, DecidableEq

/-- Models Python `str.strip()`: drop leading and trailing whitespace. -/
def pyStrip (s : String) : String :=
  String.mk (((s.data.dropWhile Char.isWhitespace).reverse.dropWhile
    Char.isWhitespace).reverse)

/-- Models Python `s[:n]`: the first `n` characters of `s` (all of `s` when it
is shorter). -/
def pyTake (n : Nat) (s : String) : String :=
  String.mk (s.data.take n)

/-- Models Python `c.isalnum()` for a single character: ASCII alphanumerics
plus Latin-1 Supplement and Latin Extended-A/B letters (which covers the
umlauts and `ß` appearing in the dataset; `×` U+00D7 and `÷` U+00F7 are the
two non-letters in that range). -/
def pyIsAlnum (c : Char) : Bool :=
  c.isAlphanum ||
    (decide (0xC0 ≤ c.toNat) && decide (c.toNat ≤ 0x24F) &&
     decide (c.toNat ≠ 0xD7) && decide (c.toNat ≠ 0xF7))

/-- Models `f"{index:03d}"`: the decimal rendering of `index` left-padded
with zeros to at least three digits. -/
def pad3 (n : Nat) : String :=
  if n < 10 then "00" ++ toString n
  else if n < 100 then "0" ++ toString n
  else toString n

/-- `create_safe_filename` (`src/backend/main.py`, lines 98-108):
`"".join(c if c.isalnum() else "_" for c in text)`. -/
def create_safe_filename (text : String) : String :=
  String.mk (text.data.map (fun c => if pyIsAlnum c then c else '_'))

/-- The sanitizer inlined in the audio generator
(`src/generate_missing_audio.py`, lines 44-45):
`"".join(c if c.isalnum() else "_" for c in word)`. -/
def gen_safe (text : String) : String :=
  String.mk (text.data.map (fun c => if pyIsAlnum c then c else '_'))

/-- The `audio_file_map` dictionary of `get_audio`
(`src/backend/main.py`, lines 315-320), as a partial map from the
`audio_type` string to the resolved file name (the name component of the
path under `AUDIO_DIR`). -/
def audio_file_map (index : Nat) (safe_german safe_english : String) :
    String → Option String := fun audio_type =>
  if audio_type = "german_word" then
    some (pad3 index ++ "_german_" ++ pyTake 20 safe_german ++ ".mp3")
  else if audio_type = "english_word" then
    some (pad3 index ++ "_english_" ++ pyTake 20 safe_english ++ ".mp3")
  else if audio_type = "german_sentence" then
    some (pad3 index ++ "_sentence_de_" ++ pyTake 15 safe_german ++ ".mp3")
  else if audio_type = "english_sentence" then
    some (pad3 index ++ "_sentence_en_" ++ pyTake 15 safe_english ++ ".mp3")
  else none

/-- The file name `get_audio` resolves for a row and an audio kind
(`src/backend/main.py`, lines 307-320): strip the two word fields, sanitize
them with `create_safe_filename`, and look the kind up in `audio_file_map`. -/
def resolved_audio_name (r : Row) (index : Nat) (audio_type : String) :
    Option String :=
  audio_file_map index
    (create_safe_filename (pyStrip r.german_word))
    (create_safe_filename (pyStrip r.english_word))
    audio_type

/-- The four file names built by `generate_missing_audio`
(`src/generate_missing_audio.py`, lines 37-45, 49, 62, 77, 91) for one row:
strip the two word fields, sanitize them with the inlined sanitizer, and
build (German word, English word, German sentence, English sentence) audio
file names. -/
def gen_filenames (index : Nat) (german_word english_word : String) :
    String × String × String × String :=
  let safe_german := gen_safe (pyStrip german_word)
  let safe_english := gen_safe (pyStrip english_word)
  (pad3 index ++ "_german_" ++ pyTake 20 safe_german ++ ".mp3",
   pad3 index ++ "_english_" ++ pyTake 20 safe_english ++ ".mp3",
   pad3 index ++ "_sentence_de_" ++ pyTake 15 safe_german ++ ".mp3",
   pad3 index ++ "_sentence_en_" ++ pyTake 15 safe_english ++ ".mp3")

/-- The validity test applied in the `get_vocabulary` loop
(`src/backend/main.py`, line 150):
`german_word and english_word and german_word != 'nan' and english_word != 'nan'`
on the stripped fields. -/
def rowValid (r : Row) : Bool :=
  let g := pyStrip r.german_word
  let e := pyStrip r.english_word
  !(g = "") && !(e = "") && !(g = "nan") && !(e = "nan")

/-- The response dictionary built for a row at a given index
(`src/backend/main.py`, lines 145-157 and 275-287): all four fields
stripped. -/
def mkEntry (index : Nat) (r : Row) : VocabEntry :=
  ⟨index, pyStrip r.german_word, pyStrip r.english_word,
   pyStrip r.german_sentence, pyStrip r.english_sentence⟩

/-- `get_vocabulary` (`src/backend/main.py`, lines 122-159): iterate over the
rows with their positional indices; skip a row whose index is in the set of
excluded `word_index`es; keep a surviving row when it passes the validity
test, appending its entry to the result list. -/
def get_vocabulary (rows : List Row) (store : List ExclusionRecord) :
    List VocabEntry :=
  let excluded_indices := store.map (·.word_index)
  rows.enum.foldl
    (fun acc p =>
      if excluded_indices.contains (Int.ofNat p.1) then acc
      else if rowValid p.2 then acc ++ [mkEntry p.1 p.2]
      else acc)
    []

/-- `get_vocabulary_item` (`src/backend/main.py`, lines 260-287): 404 when the
index is outside `[0, rowCount)`, otherwise the stripped entry for that row.
The exclusion store is never consulted. -/
def get_vocabulary_item (rows : List Row) (index : Int) :
    Except ApiError VocabEntry :=
  if index < 0 ∨ (rows.length : Int) ≤ index then .error .notFound
  else .ok (mkEntry index.toNat (rows.getD index.toNat emptyRow))

/-- `get_audio` (`src/backend/main.py`, lines 290-334): 404 when the index is
out of range; resolve the file name for the requested kind (400 when the kind
is not one of the four); 404 when the file does not exist or has size zero;
otherwise serve the file (modelled as returning its name).  `fs` is the
filesystem, mapping a file name to its size when the file exists. -/
def get_audio (rows : List Row) (fs : String → Option Nat) (index : Int)
    (audio_type : String) : Except ApiError String :=
  if index < 0 ∨ (rows.length : Int) ≤ index then .error .notFound
  else
    match resolved_audio_name (rows.getD index.toNat emptyRow) index.toNat
        audio_type with
    | none => .error .invalidAudioKind
    | some audio_file =>
      match fs audio_file with
      | none => .error .artifactNotFound
      | some 0 => .error .artifactNotFound
      | some (_ + 1) => .ok audio_file

/-- `INSERT OR REPLACE INTO excluded_words ... VALUES (?, ?, ?, CURRENT_TIMESTAMP)`
under the `UNIQUE(word_index)` constraint (`src/backend/main.py`,
lines 215-218): any row with the same `word_index` is deleted and the new row
is inserted with a fresh rowid (appended). -/
def insert_or_replace (store : List ExclusionRecord) (word_index : Int)
    (german_word english_word : String) (now : Nat) : List ExclusionRecord :=
  store.filter (fun r => !(r.word_index = word_index)) ++
    [⟨word_index, german_word, english_word, now⟩]

/-- `add_excluded_word` (`src/backend/main.py`, lines 189-227): 404 when the
index is outside `[0, rowCount)`; otherwise strip the row's two word fields
and upsert the record with the current timestamp `now`. -/
def add_excluded_word (rows : List Row) (store : List ExclusionRecord)
    (word_index : Int) (now : Nat) : Except ApiError (List ExclusionRecord) :=
  if word_index < 0 ∨ (rows.length : Int) ≤ word_index then .error .notFound
  else
    let row := rows.getD word_index.toNat emptyRow
    .ok (insert_or_replace store word_index
      (pyStrip row.german_word) (pyStrip row.english_word) now)

/-- `remove_excluded_word` (`src/backend/main.py`, lines 230-259): delete the
records with the given `word_index`; succeed when the SQLite rowcount is
positive (some record was deleted), 404 otherwise. -/
def remove_excluded_word (store : List ExclusionRecord) (word_index : Int) :
    Except ApiError (List ExclusionRecord) :=
  let remaining := store.filter (fun r => !(r.word_index = word_index))
  if remaining.length < store.length then .ok remaining
  else .error .notFound

/-- The reachable states of the exclusion store: the empty table created by
`init_database`, closed under successful `add_excluded_word` (against any
current vocabulary source and timestamp) and successful
`remove_excluded_word`. -/
inductive ReachableStore : List ExclusionRecord → Prop where
  | init : ReachableStore []
  | add {s s' : List ExclusionRecord} (rows : List Row) (word_index : Int)
      (now : Nat) : ReachableStore s →
      add_excluded_word rows s word_index now = .ok s' → ReachableStore s'
  | remove {s s' : List ExclusionRecord} (word_index : Int) :
      ReachableStore s →
      remove_excluded_word s word_index = .ok s' → ReachableStore s'

/-- Decidable equality of endpoint outcomes, used to evaluate the model on
concrete requests. -/
instance {ε α : Type} [DecidableEq ε] [DecidableEq α] :
    DecidableEq (Except ε α) := fun x y =>
  match x, y with
  | .error a, .error b =>
    if h : a = b then isTrue (by rw [h])
    else isFalse (by intro hc; injection hc; contradiction)
  | .ok a, .ok b =>
    if h : a = b then isTrue (by rw [h])
    else isFalse (by intro hc; injection hc; contradiction)
  | .error _, .ok _ => isFalse (by intro hc; cases hc)
  | .ok _, .error _ => isFalse (by intro hc; cases hc)

example : pyStrip "  Haus  " = "Haus" := by decide
example : pyTake 3 "abcdef" = "abc" := by decide
example : pad3 7 = "007" := by decide
example : create_safe_filename "gut, ja!" = "gut__ja_" := by decide
example : rowValid ⟨"nan", "x", "", ""⟩ = false := by decide
example : rowValid ⟨" Haus ", "house", "", ""⟩ = true := by decide
example :
    resolved_audio_name ⟨"Haus", "house", "", ""⟩ 0 "english_sentence" =
      some "000_sentence_en_house.mp3" := by decide
example :
    get_vocabulary [⟨"Haus", "house", "", ""⟩, ⟨"nan", "nan", "", ""⟩] [] =
      [⟨0, "Haus", "house", "", ""⟩] := by decide

/-- The step function of the `get_vocabulary` loop rewritten as a single
conditional append: a row is kept exactly when it is not excluded (test `c`)
and valid. -/
theorem vocab_foldl_eq (c : Nat × Row → Bool) :
    ∀ (l : List (Nat × Row)) (acc : List VocabEntry),
      l.foldl
        (fun acc p =>
          if c p then acc
          else if rowValid p.2 then acc ++ [mkEntry p.1 p.2]
          else acc)
        acc
        = acc ++ (l.filter (fun p => !(c p) && rowValid p.2)).map
            (fun p => mkEntry p.1 p.2) := by
  intro l
  induction l with
  | nil => intro acc; simp
  | cons x t ih =>
    intro acc
    cases h1 : c x with
    | true => simp [List.foldl_cons, List.filter_cons, h1, ih]
    | false =>
      cases h2 : rowValid x.2 with
      | true => simp [List.foldl_cons, List.filter_cons, h1, h2, ih]
      | false => simp [List.foldl_cons, List.filter_cons, h1, h2, ih]

/-- C1: for every state of the vocabulary source and of the exclusion store,
`get_vocabulary` returns exactly the rows that pass the validity test
(German and English word non-empty after stripping and not the literal
`"nan"`) and whose index is not among the stored `word_index`es, as entries
in the original source row order. -/
theorem c1_list_vocabulary_filters (rows : List Row)
    (store : List ExclusionRecord) :
    get_vocabulary rows store
      = (rows.enum.filter
          (fun p => !((store.map (·.word_index)).contains (Int.ofNat p.1)) &&
            rowValid p.2)).map (fun p => mkEntry p.1 p.2) := by
  unfold get_vocabulary
  simpa using
    vocab_foldl_eq
      (fun p => (store.map (·.word_index)).contains (Int.ofNat p.1))
      rows.enum []

/-- C5: `get_vocabulary_item` returns the entry for every in-range index even
when that index is a key of the exclusion store (it never consults the
store), and fails with `notFound` for every index outside `[0, rowCount)`. -/
theorem c5_get_by_index_ignores_exclusions (rows : List Row)
    (store : List ExclusionRecord) (index : Int) :
    (((store.map (·.word_index)).contains index) →
      0 ≤ index → index < (rows.length : Int) →
      get_vocabulary_item rows index
        = .ok (mkEntry index.toNat (rows.getD index.toNat emptyRow)))
    ∧ ((index < 0 ∨ (rows.length : Int) ≤ index) →
      get_vocabulary_item rows index = .error .notFound) := by
  constructor
  · intro _ h0 h1
    unfold get_vocabulary_item
    rw [if_neg (by omega)]
  · intro h
    unfold get_vocabulary_item
    rw [if_pos h]

/-- Witness for C5: with the one-row source `Haus/house` and index `0`
excluded, the direct lookup of index `0` still succeeds, and index `5` is
`notFound`. -/
theorem c5_witness :
    get_vocabulary_item [⟨"Haus", "house", "", ""⟩] 0
        = .ok (mkEntry (Int.toNat 0)
            ([⟨"Haus", "house", "", ""⟩].getD (Int.toNat 0) emptyRow))
      ∧ get_vocabulary_item [⟨"Haus", "house", "", ""⟩] 5
        = .error .notFound :=
  ⟨(c5_get_by_index_ignores_exclusions [⟨"Haus", "house", "", ""⟩]
      [⟨0, "Haus", "house", 3⟩] 0).1 (by decide) (by decide) (by decide),
   (c5_get_by_index_ignores_exclusions [⟨"Haus", "house", "", ""⟩]
      [⟨0, "Haus", "house", 3⟩] 5).2 (by decide)⟩

/-- C10: for every in-range index whose row has the missing-value marker
`"nan"` in both word fields, `add_excluded_word` nevertheless succeeds and
stores the literal string `"nan"` as both word snapshots — the range check is
the only precondition, row validity is never tested. -/
theorem c10_exclude_stores_nan_snapshot (rows : List Row)
    (store : List ExclusionRecord) (word_index : Int) (now : Nat)
    (h0 : 0 ≤ word_index) (h1 : word_index < (rows.length : Int))
    (hg : pyStrip (rows.getD word_index.toNat emptyRow).german_word = "nan")
    (he : pyStrip (rows.getD word_index.toNat emptyRow).english_word = "nan") :
    add_excluded_word rows store word_index now
      = .ok (insert_or_replace store word_index "nan" "nan" now) := by
  unfold add_excluded_word
  rw [if_neg (by omega)]
  simp only [hg, he]

/-- Witness for C10: excluding index `0` of a source whose only row has both
word fields missing succeeds and snapshots `"nan"/"nan"`. -/
theorem c10_witness :
    add_excluded_word [⟨"nan", "nan", "", ""⟩] [] 0 7
      = .ok (insert_or_replace [] 0 "nan" "nan" 7) :=
  c10_exclude_stores_nan_snapshot [⟨"nan", "nan", "", ""⟩] [] 0 7
    (by decide) (by decide) (by decide) (by decide)

/-- For an in-range index, `get_audio` reduces to the existence check on the
resolved file name. -/
theorem get_audio_of_resolved (rows : List Row) (fs : String → Option Nat)
    (index : Int) (audio_type : String) (name : String)
    (h0 : 0 ≤ index) (h1 : index < (rows.length : Int))
    (hname : resolved_audio_name (rows.getD index.toNat emptyRow) index.toNat
      audio_type = some name) :
    get_audio rows fs index audio_type
      = match fs name with
        | none => .error .artifactNotFound
        | some 0 => .error .artifactNotFound
        | some (_ + 1) => .ok name := by
  unfold get_audio
  rw [if_neg (by omega), hname]

/-- For an in-range index and an unrecognized kind, `get_audio` reduces to
the invalid-kind error. -/
theorem get_audio_of_unresolved (rows : List Row) (fs : String → Option Nat)
    (index : Int) (audio_type : String)
    (h0 : 0 ≤ index) (h1 : index < (rows.length : Int))
    (hname : resolved_audio_name (rows.getD index.toNat emptyRow) index.toNat
      audio_type = none) :
    get_audio rows fs index audio_type = .error .invalidAudioKind := by
  unfold get_audio
  rw [if_neg (by omega), hname]

/-- Counterexample to C4: for the out-of-range index `5` of a one-row source,
requesting the invalid kind `"word"` fails with `notFound` (the range check
runs first), not with `invalidAudioKind` as the claim states. -/
theorem c4_counterexample :
    get_audio [⟨"Haus", "house", "", ""⟩] (fun _ => none) 5 "word"
        = .error .notFound
      ∧ get_audio [⟨"Haus", "house", "", ""⟩] (fun _ => none) 5 "word"
        ≠ .error .invalidAudioKind := by
  constructor
  · rfl
  · intro h
    injection h with h
    cases h

/-- C4 (amended): for every in-range index — valid or invalid row content —
and every kind outside the four recognized strings, `get_audio` fails with
`invalidAudioKind`; for every out-of-range index it fails with `notFound`
regardless of the kind, because the range check precedes the kind check. -/
theorem c4_invalid_kind_amended (rows : List Row) (fs : String → Option Nat)
    (index : Int) (audio_type : String) :
    (0 ≤ index → index < (rows.length : Int) →
      audio_type ≠ "german_word" → audio_type ≠ "english_word" →
      audio_type ≠ "german_sentence" → audio_type ≠ "english_sentence" →
      get_audio rows fs index audio_type = .error .invalidAudioKind)
    ∧ ((index < 0 ∨ (rows.length : Int) ≤ index) →
      get_audio rows fs index audio_type = .error .notFound) := by
  constructor
  · intro h0 h1 k1 k2 k3 k4
    refine get_audio_of_unresolved rows fs index audio_type h0 h1 ?_
    simp [resolved_audio_name, audio_file_map, k1, k2, k3, k4]
  · intro h
    unfold get_audio
    rw [if_pos h]

/-- Witness for C4 (amended): kind `"word"` on the in-range index `0` fails
with `invalidAudioKind`; index `5` with the same kind fails with
`notFound`. -/
theorem c4_witness :
    get_audio [⟨"Haus", "house", "", ""⟩] (fun _ => none) 0 "word"
        = .error .invalidAudioKind
      ∧ get_audio [⟨"Haus", "house", "", ""⟩] (fun _ => none) 5 "word"
        = .error .notFound :=
  ⟨(c4_invalid_kind_amended [⟨"Haus", "house", "", ""⟩] (fun _ => none) 0
      "word").1 (by decide) (by decide) (by decide) (by decide) (by decide)
      (by decide),
   (c4_invalid_kind_amended [⟨"Haus", "house", "", ""⟩] (fun _ => none) 5
      "word").2 (by decide)⟩

/-- Counterexample to C6: index `0` of a one-row source whose word fields are
both the missing-value marker is omitted by the list view, yet the single-item
lookup returns it and the audio endpoint resolves (and here serves) its
artifact — neither operation applies the list view's validity predicate. -/
theorem c6_counterexample :
    get_vocabulary [⟨"nan", "nan", "Satz", "sentence"⟩] [] = []
      ∧ get_vocabulary_item [⟨"nan", "nan", "Satz", "sentence"⟩] 0
        = .ok ⟨0, "nan", "nan", "Satz", "sentence"⟩
      ∧ get_audio [⟨"nan", "nan", "Satz", "sentence"⟩] (fun _ => some 1) 0
          "german_word"
        = .ok "000_german_nan.mp3" := by decide

/-- C6 (amended): the single-item lookup and the audio resolution check only
the index range, never the row-validity predicate of the list view: for every
in-range index (valid row or not) the lookup returns the row's entry, and for
every recognized kind the audio request never fails with `notFound` or
`invalidAudioKind` (it proceeds to the artifact existence check). -/
theorem c6_no_validity_filter_amended (rows : List Row)
    (fs : String → Option Nat) (index : Int) (audio_type : String)
    (h0 : 0 ≤ index) (h1 : index < (rows.length : Int))
    (hk : audio_type = "german_word" ∨ audio_type = "english_word" ∨
      audio_type = "german_sentence" ∨ audio_type = "english_sentence") :
    get_vocabulary_item rows index
        = .ok (mkEntry index.toNat (rows.getD index.toNat emptyRow))
      ∧ get_audio rows fs index audio_type ≠ .error .notFound
      ∧ get_audio rows fs index audio_type ≠ .error .invalidAudioKind := by
  have hres : resolved_audio_name (rows.getD index.toNat emptyRow)
      index.toNat audio_type ≠ none := by
    rcases hk with hk | hk | hk | hk <;> subst hk <;>
      simp [resolved_audio_name, audio_file_map]
  obtain ⟨name, hname⟩ := Option.ne_none_iff_exists'.1 hres
  have haudio := get_audio_of_resolved rows fs index audio_type name h0 h1
    hname
  refine ⟨?_, ?_, ?_⟩
  · unfold get_vocabulary_item
    rw [if_neg (by omega)]
  · rw [haudio]
    cases hfs : fs name with
    | none => intro h; injection h with h; cases h
    | some n =>
      cases n with
      | zero => intro h; injection h with h; cases h
      | succ m => intro h; cases h
  · rw [haudio]
    cases hfs : fs name with
    | none => intro h; injection h with h; cases h
    | some n =>
      cases n with
      | zero => intro h; injection h with h; cases h
      | succ m => intro h; cases h

/-- Witness for C6 (amended): the invalid row `nan/nan` at the in-range
index `0` is returned by the lookup, and its audio request for
`"german_word"` is neither `notFound` nor `invalidAudioKind`. -/
theorem c6_witness :
    get_vocabulary_item [⟨"nan", "nan", "Satz", "sentence"⟩] 0
        = .ok (mkEntry (Int.toNat 0)
            ([⟨"nan", "nan", "Satz", "sentence"⟩].getD (Int.toNat 0) emptyRow))
      ∧ get_audio [⟨"nan", "nan", "Satz", "sentence"⟩] (fun _ => some 1) 0
          "german_word" ≠ .error .notFound
      ∧ get_audio [⟨"nan", "nan", "Satz", "sentence"⟩] (fun _ => some 1) 0
          "german_word" ≠ .error .invalidAudioKind :=
  c6_no_validity_filter_amended [⟨"nan", "nan", "Satz", "sentence"⟩]
    (fun _ => some 1) 0 "german_word" (by decide) (by decide) (Or.inl rfl)

/-- Counterexample to C2: for the row `Haus/house` at index `0`, the file
served for kind `"english_sentence"` is named from the sanitized *English*
word (`house`), not from the sanitized German word (`Haus`) as the claim
states for the sentence kinds. -/
theorem c2_counterexample :
    get_audio [⟨"Haus", "house", "", ""⟩] (fun _ => some 1) 0
        "english_sentence"
        = .ok "000_sentence_en_house.mp3"
      ∧ get_audio [⟨"Haus", "house", "", ""⟩] (fun _ => some 1) 0
          "english_sentence"
        ≠ .ok ("000_sentence_en_"
            ++ pyTake 15 (create_safe_filename (pyStrip "Haus")) ++ ".mp3") := by
  decide

/-- C2 (amended): for every in-range index, the audio path resolved for the
four kinds is `{index zero-padded to 3 digits}_{role}_{truncatedToken}.mp3`
with roles `german`, `english`, `sentence_de`, `sentence_en`; the token is
the sanitized German word truncated to 20 characters for `german_word`, the
sanitized English word truncated to 20 for `english_word`, the sanitized
German word truncated to 15 for `german_sentence`, and the sanitized
*English* word truncated to 15 for `english_sentence`. -/
theorem c2_audio_naming_amended (rows : List Row) (index : Int)
    (h0 : 0 ≤ index) (h1 : index < (rows.length : Int)) :
    get_audio rows (fun _ => some 1) index "german_word"
        = .ok (pad3 index.toNat ++ "_german_"
            ++ pyTake 20 (create_safe_filename
              (pyStrip (rows.getD index.toNat emptyRow).german_word))
            ++ ".mp3")
      ∧ get_audio rows (fun _ => some 1) index "english_word"
        = .ok (pad3 index.toNat ++ "_english_"
            ++ pyTake 20 (create_safe_filename
              (pyStrip (rows.getD index.toNat emptyRow).english_word))
            ++ ".mp3")
      ∧ get_audio rows (fun _ => some 1) index "german_sentence"
        = .ok (pad3 index.toNat ++ "_sentence_de_"
            ++ pyTake 15 (create_safe_filename
              (pyStrip (rows.getD index.toNat emptyRow).german_word))
            ++ ".mp3")
      ∧ get_audio rows (fun _ => some 1) index "english_sentence"
        = .ok (pad3 index.toNat ++ "_sentence_en_"
            ++ pyTake 15 (create_safe_filename
              (pyStrip (rows.getD index.toNat emptyRow).english_word))
            ++ ".mp3") := by
  refine ⟨?_, ?_, ?_, ?_⟩
  · rw [get_audio_of_resolved rows (fun _ => some 1) index "german_word"
      (pad3 index.toNat ++ "_german_"
        ++ pyTake 20 (create_safe_filename
          (pyStrip (rows.getD index.toNat emptyRow).german_word)) ++ ".mp3")
      h0 h1 (by simp [resolved_audio_name, audio_file_map])]
  · rw [get_audio_of_resolved rows (fun _ => some 1) index "english_word"
      (pad3 index.toNat ++ "_english_"
        ++ pyTake 20 (create_safe_filename
          (pyStrip (rows.getD index.toNat emptyRow).english_word)) ++ ".mp3")
      h0 h1 (by simp [resolved_audio_name, audio_file_map])]
  · rw [get_audio_of_resolved rows (fun _ => some 1) index "german_sentence"
      (pad3 index.toNat ++ "_sentence_de_"
        ++ pyTake 15 (create_safe_filename
          (pyStrip (rows.getD index.toNat emptyRow).german_word)) ++ ".mp3")
      h0 h1 (by simp [resolved_audio_name, audio_file_map])]
  · rw [get_audio_of_resolved rows (fun _ => some 1) index "english_sentence"
      (pad3 index.toNat ++ "_sentence_en_"
        ++ pyTake 15 (create_safe_filename
          (pyStrip (rows.getD index.toNat emptyRow).english_word)) ++ ".mp3")
      h0 h1 (by simp [resolved_audio_name, audio_file_map])]

/-- Witness for C2 (amended): the four names resolved for the row
`Haus/house` at index `0`. -/
theorem c2_witness :
    get_audio [⟨"Haus", "house", "", ""⟩] (fun _ => some 1) 0 "german_word"
        = .ok (pad3 (Int.toNat 0) ++ "_german_"
            ++ pyTake 20 (create_safe_filename
              (pyStrip ([⟨"Haus", "house", "", ""⟩].getD (Int.toNat 0)
                emptyRow).german_word))
            ++ ".mp3")
      ∧ get_audio [⟨"Haus", "house", "", ""⟩] (fun _ => some 1) 0
          "english_word"
        = .ok (pad3 (Int.toNat 0) ++ "_english_"
            ++ pyTake 20 (create_safe_filename
              (pyStrip ([⟨"Haus", "house", "", ""⟩].getD (Int.toNat 0)
                emptyRow).english_word))
            ++ ".mp3")
      ∧ get_audio [⟨"Haus", "house", "", ""⟩] (fun _ => some 1) 0
          "german_sentence"
        = .ok (pad3 (Int.toNat 0) ++ "_sentence_de_"
            ++ pyTake 15 (create_safe_filename
              (pyStrip ([⟨"Haus", "house", "", ""⟩].getD (Int.toNat 0)
                emptyRow).german_word))
            ++ ".mp3")
      ∧ get_audio [⟨"Haus", "house", "", ""⟩] (fun _ => some 1) 0
          "english_sentence"
        = .ok (pad3 (Int.toNat 0) ++ "_sentence_en_"
            ++ pyTake 15 (create_safe_filename
              (pyStrip ([⟨"Haus", "house", "", ""⟩].getD (Int.toNat 0)
                emptyRow).english_word))
            ++ ".mp3") :=
  c2_audio_naming_amended [⟨"Haus", "house", "", ""⟩] 0 (by decide) (by decide)

/-- C3: the backend's sanitizer coincides with the generator's inlined
sanitizer, and for every index and raw row fields the file name the backend
resolves for each of the four kinds is byte-for-byte the file name the
offline generator constructs for that row and kind. -/
theorem c3_backend_matches_generator (index : Nat) (r : Row) :
    (∀ s : String, create_safe_filename s = gen_safe s)
      ∧ resolved_audio_name r index "german_word"
        = some (gen_filenames index r.german_word r.english_word).1
      ∧ resolved_audio_name r index "english_word"
        = some (gen_filenames index r.german_word r.english_word).2.1
      ∧ resolved_audio_name r index "german_sentence"
        = some (gen_filenames index r.german_word r.english_word).2.2.1
      ∧ resolved_audio_name r index "english_sentence"
        = some (gen_filenames index r.german_word r.english_word).2.2.2 := by
  exact ⟨fun s => rfl, rfl, rfl, rfl, rfl⟩

/-- C8: for every in-range index and recognized kind resolving to file
`name`, `get_audio` fails with `artifactNotFound` precisely when the
filesystem has no entry for `name` or an entry of size zero — a missing file
and a zero-length file produce the identical outcome. -/
theorem c8_artifact_existence (rows : List Row) (fs : String → Option Nat)
    (index : Int) (audio_type : String) (name : String)
    (h0 : 0 ≤ index) (h1 : index < (rows.length : Int))
    (hname : resolved_audio_name (rows.getD index.toNat emptyRow) index.toNat
      audio_type = some name) :
    get_audio rows fs index audio_type = .error .artifactNotFound
      ↔ (fs name = none ∨ fs name = some 0) := by
  rw [get_audio_of_resolved rows fs index audio_type name h0 h1 hname]
  cases hfs : fs name with
  | none => simp
  | some n =>
    cases n with
    | zero => simp
    | succ m => simp

/-- Witness for C8: for the row `Haus/house` at index `0` and kind
`"german_word"`, a filesystem without the file and one with a zero-length
file both yield `artifactNotFound` (both sides of each iff hold). -/
theorem c8_witness :
    (get_audio [⟨"Haus", "house", "", ""⟩] (fun _ => none) 0 "german_word"
          = .error .artifactNotFound
        ↔ ((fun _ => (none : Option Nat)) "000_german_Haus.mp3" = none
          ∨ (fun _ => (none : Option Nat)) "000_german_Haus.mp3" = some 0))
      ∧ (get_audio [⟨"Haus", "house", "", ""⟩] (fun _ => some 0) 0
            "german_word"
          = .error .artifactNotFound
        ↔ ((fun _ => (some 0 : Option Nat)) "000_german_Haus.mp3" = none
          ∨ (fun _ => (some 0 : Option Nat)) "000_german_Haus.mp3"
            = some 0)) :=
  ⟨c8_artifact_existence [⟨"Haus", "house", "", ""⟩] (fun _ => none) 0
      "german_word" "000_german_Haus.mp3" (by decide) (by decide) (by decide),
   c8_artifact_existence [⟨"Haus", "house", "", ""⟩] (fun _ => some 0) 0
      "german_word" "000_german_Haus.mp3" (by decide) (by decide) (by decide)⟩

/-- C9: sanitization is a one-to-one character map — the output has exactly
the length of the input, each non-alphanumeric character becomes a single
underscore and each alphanumeric character is unchanged (no collapsing) —
and truncation never yields more than the 20- or 15-character cap and
returns the whole string unchanged when it is no longer than the cap. -/
theorem c9_sanitize_truncate (s : String) :
    (create_safe_filename s).data.length = s.data.length
      ∧ (∀ (i : Nat) (c : Char), s.data[i]? = some c →
          (create_safe_filename s).data[i]?
            = some (if pyIsAlnum c then c else '_'))
      ∧ (pyTake 20 s).data.length ≤ 20
      ∧ (pyTake 15 s).data.length ≤ 15
      ∧ (s.data.length ≤ 20 → pyTake 20 s = s)
      ∧ (s.data.length ≤ 15 → pyTake 15 s = s) := by
  refine ⟨?_, ?_, ?_, ?_, ?_, ?_⟩
  · simp [create_safe_filename]
  · intro i c h
    simp [create_safe_filename, List.getElem?_map, h]
  · simp [pyTake, List.length_take]
  · simp [pyTake, List.length_take]
  · intro h
    simp [pyTake, List.take_of_length_le h]
  · intro h
    simp [pyTake, List.take_of_length_le h]

/-- Witness for C9: in `"a!"` position `1` holds `'!'`, which sanitizes to
`'_'`; the two-character string is within both caps, so truncation returns it
unchanged. -/
theorem c9_witness :
    (create_safe_filename (String.mk ['a', '!'])).data[1]? = some '_'
      ∧ pyTake 20 (String.mk ['a', '!']) = String.mk ['a', '!']
      ∧ pyTake 15 (String.mk ['a', '!']) = String.mk ['a', '!'] := by
  have h1 := (c9_sanitize_truncate (String.mk ['a', '!'])).2.1 1 '!'
    (by decide)
  have h2 := (c9_sanitize_truncate (String.mk ['a', '!'])).2.2.2.2.1
    (by decide)
  have h3 := (c9_sanitize_truncate (String.mk ['a', '!'])).2.2.2.2.2
    (by decide)
  refine ⟨?_, h2, h3⟩
  rw [h1]
  decide

/-- Filtering the upserted store for the upserted key yields exactly the new
record: the upsert first removed every record with that key and then appended
the fresh one. -/
theorem filter_insert_or_replace (store : List ExclusionRecord)
    (word_index : Int) (german_word english_word : String) (now : Nat) :
    (insert_or_replace store word_index german_word english_word now).filter
        (fun r => decide (r.word_index = word_index))
      = [⟨word_index, german_word, english_word, now⟩] := by
  unfold insert_or_replace
  rw [List.filter_append]
  have hleft : (store.filter (fun r => !(r.word_index = word_index))).filter
      (fun r => decide (r.word_index = word_index)) = [] := by
    rw [List.filter_eq_nil_iff]
    intro r hr
    have := (List.mem_filter.1 hr).2
    simpa using this
  rw [hleft]
  simp

/-- The upsert preserves distinctness of the stored `word_index` keys. -/
theorem keys_nodup_insert_or_replace (store : List ExclusionRecord)
    (word_index : Int) (german_word english_word : String) (now : Nat)
    (h : (store.map (·.word_index)).Nodup) :
    ((insert_or_replace store word_index german_word english_word now).map
      (·.word_index)).Nodup := by
  unfold insert_or_replace
  rw [List.map_append]
  refine List.Nodup.append ?_ (by simp) ?_
  · exact List.Nodup.sublist
      (List.Sublist.map (·.word_index)
        (List.filter_sublist store)) h
  · intro a ha hb
    simp only [List.map_cons, List.map_nil, List.mem_singleton] at hb
    subst hb
    obtain ⟨r, hr, hkey⟩ := List.mem_map.1 ha
    have := (List.mem_filter.1 hr).2
    rw [hkey] at this
    simp at this

/-- Every reachable state of the exclusion store has pairwise-distinct
`word_index` keys. -/
theorem reachable_keys_nodup (s : List ExclusionRecord)
    (hs : ReachableStore s) : (s.map (·.word_index)).Nodup := by
  induction hs with
  | init => simp
  | add rows word_index now hs h ih =>
    unfold add_excluded_word at h
    split at h
    · cases h
    · injection h with h
      subst h
      exact keys_nodup_insert_or_replace _ _ _ _ _ ih
  | @remove s1 s2 word_index hs h ih =>
    simp only [remove_excluded_word] at h
    split at h
    · injection h with h
      subst h
      exact List.Nodup.sublist
        (List.Sublist.map (fun r : ExclusionRecord => r.word_index)
          (List.filter_sublist s1)) ih
    · cases h

/-- C7: from every reachable exclusion-store state, the store's keys are
pairwise distinct, and excluding any in-range index succeeds (never errors),
replaces rather than duplicates — the resulting store is the upsert of the
fresh snapshot-and-timestamp record, holds exactly one record for that index
(the fresh one), and keeps all keys distinct. -/
theorem c7_exclusion_upsert (s : List ExclusionRecord) (rows : List Row)
    (word_index : Int) (now : Nat) (hs : ReachableStore s)
    (h0 : 0 ≤ word_index) (h1 : word_index < (rows.length : Int)) :
    (s.map (·.word_index)).Nodup
      ∧ add_excluded_word rows s word_index now
        = .ok (insert_or_replace s word_index
            (pyStrip (rows.getD word_index.toNat emptyRow).german_word)
            (pyStrip (rows.getD word_index.toNat emptyRow).english_word) now)
      ∧ (insert_or_replace s word_index
            (pyStrip (rows.getD word_index.toNat emptyRow).german_word)
            (pyStrip (rows.getD word_index.toNat emptyRow).english_word)
            now).filter (fun r => decide (r.word_index = word_index))
        = [⟨word_index,
            pyStrip (rows.getD word_index.toNat emptyRow).german_word,
            pyStrip (rows.getD word_index.toNat emptyRow).english_word, now⟩]
      ∧ ((insert_or_replace s word_index
            (pyStrip (rows.getD word_index.toNat emptyRow).german_word)
            (pyStrip (rows.getD word_index.toNat emptyRow).english_word)
            now).map (·.word_index)).Nodup := by
  have hnodup := reachable_keys_nodup s hs
  refine ⟨hnodup, ?_, filter_insert_or_replace s word_index _ _ now,
    keys_nodup_insert_or_replace s word_index _ _ now hnodup⟩
  unfold add_excluded_word
  rw [if_neg (by omega)]

/-- Witness for C7: excluding index `0` of a one-row source from a store that
already holds a record for index `0` (reachable by excluding it earlier)
succeeds, replaces the record, and keeps one record for the index. -/
theorem c7_witness :
    (([⟨0, "Haus", "house", 1⟩] : List ExclusionRecord).map
        (·.word_index)).Nodup
      ∧ add_excluded_word [⟨"Haus", "house", "", ""⟩]
          [⟨0, "Haus", "house", 1⟩] 0 2
        = .ok (insert_or_replace [⟨0, "Haus", "house", 1⟩] 0
            (pyStrip (([⟨"Haus", "house", "", ""⟩] : List Row).getD
              (Int.toNat 0) emptyRow).german_word)
            (pyStrip (([⟨"Haus", "house", "", ""⟩] : List Row).getD
              (Int.toNat 0) emptyRow).english_word) 2)
      ∧ (insert_or_replace [⟨0, "Haus", "house", 1⟩] 0
            (pyStrip (([⟨"Haus", "house", "", ""⟩] : List Row).getD
              (Int.toNat 0) emptyRow).german_word)
            (pyStrip (([⟨"Haus", "house", "", ""⟩] : List Row).getD
              (Int.toNat 0) emptyRow).english_word) 2).filter
            (fun r => decide (r.word_index = 0))
        = [⟨0,
            pyStrip (([⟨"Haus", "house", "", ""⟩] : List Row).getD
              (Int.toNat 0) emptyRow).german_word,
            pyStrip (([⟨"Haus", "house", "", ""⟩] : List Row).getD
              (Int.toNat 0) emptyRow).english_word, 2⟩]
      ∧ ((insert_or_replace [⟨0, "Haus", "house", 1⟩] 0
            (pyStrip (([⟨"Haus", "house", "", ""⟩] : List Row).getD
              (Int.toNat 0) emptyRow).german_word)
            (pyStrip (([⟨"Haus", "house", "", ""⟩] : List Row).getD
              (Int.toNat 0) emptyRow).english_word) 2).map
            (·.word_index)).Nodup :=
  c7_exclusion_upsert [⟨0, "Haus", "house", 1⟩] [⟨"Haus", "house", "", ""⟩]
    0 2
    (ReachableStore.add [⟨"Haus", "house", "", ""⟩] 0 1 ReachableStore.init
      (by decide))
    (by decide) (by decide)
